import Mathlib

/-!
# Verification of the Datavid Celebration Planner member service

Shallow embedding of `src/main.py`: the proleptic-Gregorian date arithmetic
used by the Python `datetime.date` standard library (leap years, per-month
lengths, ordinal day counts, lexicographic date comparison), the
birth-date/age validator, the days-until-birthday computation, the SQLite-like
member store with its composite uniqueness constraint, the list endpoint with
its filter and sort toggles, the mock (template) message generator, and the
simulated e-mail send endpoint.
-/

namespace Celebration

/-! ## Calendar primitives (embedding of the semantics of Python `datetime.date`) -/

/-- Gregorian leap-year rule, as implemented by Python `calendar.isleap` and
used by `datetime.date`. -/
def isLeap (y : Nat) : Bool :=
  y % 4 == 0 && (y % 100 != 0 || y % 400 == 0)

/-- Number of days in month `m` (1..12) of a year whose leap flag is `leap`;
`0` for values outside 1..12. -/
def daysInMonth (leap : Bool) : Nat → Nat
  | 1 => 31
  | 2 => if leap then 29 else 28
  | 3 => 31
  | 4 => 30
  | 5 => 31
  | 6 => 30
  | 7 => 31
  | 8 => 31
  | 9 => 30
  | 10 => 31
  | 11 => 30
  | 12 => 31
  | _ => 0

/-- Days in the year strictly before month `m` (for `m` in 1..13). -/
def daysBeforeMonth (leap : Bool) : Nat → Nat
  | 0 => 0
  | 1 => 0
  | m + 1 => daysBeforeMonth leap m + daysInMonth leap m

/-- A calendar date as Python `datetime.date` stores it: year, month, day. -/
structure Date where
  year : Nat
  month : Nat
  day : Nat
deriving DecidableEq, Repr

/-- Validity exactly as enforced by the Python `date` constructor:
`1 <= year <= 9999`, `1 <= month <= 12`, `1 <= day <= days in that month`. -/
def Date.valid (d : Date) : Bool :=
  1 ≤ d.year && d.year ≤ 9999 && 1 ≤ d.month && d.month ≤ 12 &&
  1 ≤ d.day && d.day ≤ daysInMonth (isLeap d.year) d.month

/-- The Python `date(year, month, day)` constructor: raises `ValueError`
(here: `none`) on an invalid triple. -/
def mkDate (y m d : Nat) : Option Date :=
  if (Date.mk y m d).valid then some (Date.mk y m d) else none

/-- Days before January 1 of year `y` counted from the epoch of
`date.toordinal` (so that 0001-01-01 has ordinal 1), as in CPython
`datetime._days_before_year`: with `p = y - 1`,
`365*p + p//4 - p//100 + p//400`. -/
def daysBeforeYear (y : Nat) : Nat :=
  365 * (y - 1) + (y - 1) / 4 - (y - 1) / 100 + (y - 1) / 400

/-- Python `date.toordinal`: the day count from the calendar epoch. -/
def toOrdinal (d : Date) : Nat :=
  daysBeforeYear d.year + daysBeforeMonth (isLeap d.year) d.month + d.day

/-- Python `date` comparison: lexicographic on (year, month, day). -/
def dateLt (a b : Date) : Bool :=
  a.year < b.year ||
    (a.year == b.year &&
      (a.month < b.month || (a.month == b.month && a.day < b.day)))

/-- Successor day, with month and year rollover (semantics of Python
`date + timedelta(days=1)`, ignoring the year-9999 overflow which the
theorems exclude via validity hypotheses). -/
def nextDay (d : Date) : Date :=
  if d.day < daysInMonth (isLeap d.year) d.month then ⟨d.year, d.month, d.day + 1⟩
  else if d.month < 12 then ⟨d.year, d.month + 1, 1⟩
  else ⟨d.year + 1, 1, 1⟩

/-! ## Parsing (embedding of `datetime.strptime(v, "%Y-%m-%d").date()`)

CPython `_strptime` matches `%Y` as exactly four digits and `%m`, `%d` as one
or two digits, requires the whole string to match, and then builds a `date`,
which raises `ValueError` when the triple is not a real calendar date. -/

/-- Split a character list into the groups separated by the `-` character. -/
def splitDashes : List Char → List (List Char)
  | [] => [[]]
  | c :: cs =>
    let r := splitDashes cs
    if c == '-' then [] :: r
    else
      match r with
      | [] => [[c]]
      | g :: gs => (c :: g) :: gs

/-- Value of a run of decimal digit characters. -/
def digitsToNat (cs : List Char) : Nat :=
  cs.foldl (fun a c => 10 * a + (c.toNat - 48)) 0

/-- Parse a birth-date string in `YYYY-MM-DD` form; `none` models the
`ValueError` raised by `strptime`: `%Y` is exactly four digits, `%m` and `%d`
one or two digits, nothing else in the string, and the resulting triple must
be a real calendar date. -/
def parseDate (s : String) : Option Date :=
  match splitDashes s.data with
  | [ys, ms, ds] =>
    if ys.length == 4 && ys.all Char.isDigit &&
       1 ≤ ms.length && ms.length ≤ 2 && ms.all Char.isDigit &&
       1 ≤ ds.length && ds.length ≤ 2 && ds.all Char.isDigit then
      mkDate (digitsToNat ys) (digitsToNat ms) (digitsToNat ds)
    else none
  | _ => none

/-! ## Date/Age engine (embedding of `main.py`) -/

/-- Lexicographic comparison of (month, day) pairs, as Python tuple `<`. -/
def pairLt (a b : Nat × Nat) : Bool :=
  a.1 < b.1 || (a.1 == b.1 && a.2 < b.2)

/-- The age computed by `Member.validate_birth_date` (main.py line 128):
`today.year - birth.year - ((today.month, today.day) < (birth.month, birth.day))`. -/
def computedAge (birth today : Date) : Int :=
  (today.year : Int) - (birth.year : Int) -
    (if pairLt (today.month, today.day) (birth.month, birth.day) then 1 else 0)

/-- The underage error text of main.py line 131. -/
def underageMessage (age : Int) : String :=
  "Member must be at least 18 years old. Current age would be " ++ toString age

/-- The format error text of main.py line 125. -/
def formatMessage : String := "Birth date must be in YYYY-MM-DD format"

/-- `Member.validate_birth_date` (main.py lines 120-133): strict parse, age
computation against `today`, underage rejection, returning the input text
unchanged on success. -/
def validate_birth_date (v : String) (today : Date) : Except String String :=
  match parseDate v with
  | none => .error formatMessage
  | some birth =>
    let age := computedAge birth today
    if age < 18 then .error (underageMessage age)
    else .ok v

/-- Core of `calculate_days_until_birthday` (main.py lines 151-159) once the
birth date is parsed: build this-year candidate, fall back to next year when
it is strictly before `today`, return the day difference. `none` models the
`ValueError` raised by an unconstructible candidate (Feb 29 in a non-leap
year). -/
def daysUntilBirthday (birth today : Date) : Option Int :=
  match mkDate today.year birth.month birth.day with
  | none => none
  | some cand =>
    if dateLt cand today then
      match mkDate (today.year + 1) birth.month birth.day with
      | none => none
      | some cand2 => some ((toOrdinal cand2 : Int) - (toOrdinal today : Int))
    else some ((toOrdinal cand : Int) - (toOrdinal today : Int))

/-- `calculate_days_until_birthday` (main.py lines 151-159), string input as
in the source. -/
def calculate_days_until_birthday (birth_date_str : String) (today : Date) :
    Option Int :=
  match parseDate birth_date_str with
  | none => none
  | some birth => daysUntilBirthday birth today

example : daysUntilBirthday ⟨1990, 10, 12⟩ ⟨2025, 10, 12⟩ = some 0 := by decide
example : daysUntilBirthday ⟨1990, 10, 13⟩ ⟨2025, 10, 12⟩ = some 1 := by decide
example : daysUntilBirthday ⟨1990, 10, 11⟩ ⟨2025, 10, 12⟩ = some 364 := by decide
example : daysUntilBirthday ⟨2000, 2, 29⟩ ⟨2025, 3, 1⟩ = none := by decide
example : daysUntilBirthday ⟨2000, 2, 29⟩ ⟨2024, 2, 1⟩ = some 28 := by decide
example : daysUntilBirthday ⟨2000, 2, 29⟩ ⟨2024, 3, 1⟩ = none := by decide
example : calculate_days_until_birthday "1990-03-15" ⟨2025, 10, 12⟩ = some 154 := by decide
example : parseDate "1990-02-29" = none := by decide
example : parseDate "1991-2-3" = some ⟨1991, 2, 3⟩ := by decide
example : parseDate "199-02-03" = none := by decide

/-! ## Member store (embedding of the SQLite `members` table)

The table column `created_at` is written by the store and never read by any
operation modelled here (the create response of main.py line 248 contains only
the id and the caller-supplied fields), so it is not modelled. -/

/-- The caller-supplied body of `POST /members` (pydantic model `Member`). -/
structure MemberInput where
  first_name : String
  last_name : String
  birth_date : String
  country : String
  city : String
deriving DecidableEq, Repr

/-- A stored row of the `members` table, with its assigned id. -/
structure MemberRecord where
  id : Nat
  first_name : String
  last_name : String
  birth_date : String
  country : String
  city : String
deriving DecidableEq, Repr

/-- The store: rows in insertion order plus the AUTOINCREMENT counter
(ids are never reused). -/
structure Store where
  rows : List MemberRecord
  nextId : Nat
deriving DecidableEq, Repr

/-- The composite uniqueness key `UNIQUE(first_name, last_name, country, city)`
of the table (main.py line 56), compared between a stored row and an insert. -/
def sameKey (r : MemberRecord) (m : MemberInput) : Bool :=
  r.first_name == m.first_name && r.last_name == m.last_name &&
  r.country == m.country && r.city == m.city

/-- The error taxonomy of the service, tagged by HTTP status class:
`unprocessable` is the 422 raised for format/age validation failures,
`badRequest` the 400 raised on a uniqueness conflict, `notFound` the 404,
and `invalidQuery` the 422 with which FastAPI rejects a query parameter
failing its `Query(pattern=...)` check before the handler runs. -/
inductive ApiError where
  | unprocessable (detail : String)
  | badRequest (detail : String)
  | notFound (detail : String)
  | invalidQuery
deriving DecidableEq, Repr

/-- The duplicate-member detail string of main.py lines 250-253. -/
def conflictMessage (m : MemberInput) : String :=
  "Member with name \x27" ++ m.first_name ++ " " ++ m.last_name ++ "\x27 in " ++
    m.city ++ ", " ++ m.country ++ " already exists"

/-- `create_member` (main.py lines 235-256): pydantic runs
`validate_birth_date` while parsing the request body, then the INSERT either
violates the uniqueness constraint (`sqlite3.IntegrityError`, turned into the
400 conflict) or succeeds and the response is the input plus the assigned id.
The second component is the store after the call: a failed attempt leaves it
unchanged. -/
def create_member (member : MemberInput) (today : Date) (st : Store) :
    Except ApiError MemberRecord × Store :=
  match validate_birth_date member.birth_date today with
  | .error e => (.error (.unprocessable e), st)
  | .ok _ =>
    if st.rows.any (fun r => sameKey r member) then
      (.error (.badRequest (conflictMessage member)), st)
    else
      let row : MemberRecord :=
        { id := st.nextId
          first_name := member.first_name
          last_name := member.last_name
          birth_date := member.birth_date
          country := member.country
          city := member.city }
      (.ok row, ⟨st.rows ++ [row], st.nextId + 1⟩)

/-- Compute `days_until_birthday` for every row (main.py lines 264-268); the
whole request fails (`none`) when any row raises. -/
def augmentRows (rows : List MemberRecord) (today : Date) :
    Option (List (MemberRecord × Int)) :=
  match rows with
  | [] => some []
  | r :: rs =>
    match calculate_days_until_birthday r.birth_date today, augmentRows rs today with
    | some n, some l => some ((r, n) :: l)
    | _, _ => none

/-- Ordering of augmented rows by the computed `days_until_birthday`, the sort
key of main.py line 274. -/
def byDays (a b : MemberRecord × Int) : Prop := a.2 ≤ b.2

instance : DecidableRel byDays := fun a b => inferInstanceAs (Decidable (a.2 ≤ b.2))

instance : IsTotal (MemberRecord × Int) byDays := ⟨fun a b => le_total a.2 b.2⟩

instance : IsTrans (MemberRecord × Int) byDays := ⟨fun _ _ _ h h2 => le_trans h h2⟩

/-- `list_members` (main.py lines 259-276): augment every row with its
computed days value, filter to values `≤ 30` when `upcoming_only`, then sort
ascending by the value when `sort_by_birthday` (Python `list.sort` is a
stable sort; a stable insertion sort models it). -/
def list_members (st : Store) (today : Date)
    (sort_by_birthday upcoming_only : Bool) :
    Option (List (MemberRecord × Int)) :=
  match augmentRows st.rows today with
  | none => none
  | some members =>
    let members := if upcoming_only then members.filter (fun m => m.2 ≤ 30) else members
    let members := if sort_by_birthday then members.insertionSort byDays else members
    some members

/-- `SELECT * FROM members WHERE id = ?` (id is the primary key). -/
def findById (rows : List MemberRecord) (member_id : Nat) : Option MemberRecord :=
  rows.find? (fun r => r.id == member_id)

/-! ## Message generator (embedding of `generate_ai_message`, mock strategy) -/

/-- The `parameters` object of the mock explanation (main.py lines 176-179). -/
structure ExplanationParams where
  tone : String
  language : String
deriving DecidableEq, Repr

/-- The `explanation` object of the mock strategy (main.py lines 173-182). -/
structure Explanation where
  model : String
  method : String
  parameters : ExplanationParams
  rationale : String
deriving DecidableEq, Repr

/-- The `BirthdayMessage` response model (main.py lines 146-148). -/
structure BirthdayMessage where
  message : String
  explanation : Explanation
deriving DecidableEq, Repr

/-- The `COUNTRY_LANGUAGES` lookup with its "en" default (main.py 29-32). -/
def countryLanguage : String → String
  | "USA" => "en"
  | "UK" => "en"
  | "Canada" => "en"
  | "Australia" => "en"
  | "Germany" => "de"
  | "Japan" => "ja"
  | "Brazil" => "pt"
  | "India" => "hi"
  | _ => "en"

/-- The `"friendly"` entry of `tone_templates` (main.py line 167); note the
leading space present in the source string. -/
def friendlyTemplate (m : MemberRecord) : String :=
  " Happy Birthday, " ++ m.first_name ++
    "! Wishing you an amazing day filled with joy and laughter from all of us at Datavid!"

/-- The `"formal"` entry of `tone_templates` (main.py line 168). -/
def formalTemplate (m : MemberRecord) : String :=
  "Dear " ++ m.first_name ++ " " ++ m.last_name ++
    ", On behalf of Datavid, we wish you a very happy birthday and continued success in the year ahead."

/-- The dictionary lookup `tone_templates.get(tone, tone_templates["friendly"])`
(main.py line 171): an unrecognized tone falls back to the friendly template. -/
def toneTemplate (member : MemberRecord) (tone : String) : String :=
  match tone with
  | "friendly" => friendlyTemplate member
  | "formal" => formalTemplate member
  | _ => friendlyTemplate member

/-- `generate_ai_message` (main.py lines 162-184) in the `MOCK_AI` (template)
strategy; the other branch delegates to the external OpenAI collaborator,
which the spec treats as an opaque out-of-scope collaborator. The explanation
parameters record the supplied tone verbatim. -/
def generate_ai_message (member : MemberRecord) (tone : String) : BirthdayMessage :=
  { message := toneTemplate member tone
    explanation :=
      { model := "mock-generator-v1"
        method := "template_based_generation"
        parameters := { tone := tone, language := countryLanguage member.country }
        rationale := "Generated using a rule-based template system with " ++ tone ++
          " tone. Personalized with member\x27s first name and considering cultural context from " ++
          member.country ++ "." } }

/-! ## Message and e-mail endpoints -/

/-- The FastAPI `Query("friendly", pattern="^(friendly|formal)$")` check on
`tone` (main.py lines 295 and 310): the anchored regex accepts exactly the
two literal tones. FastAPI validates query parameters and rejects the request
with a 422 before the handler body runs. -/
def tonePattern (tone : String) : Bool :=
  tone == "friendly" || tone == "formal"

/-- `generate_birthday_message` (main.py lines 292-304), including the
query-parameter validation FastAPI performs before entering the handler. -/
def generate_birthday_message (st : Store) (member_id : Nat) (tone : String) :
    Except ApiError BirthdayMessage :=
  if tonePattern tone then
    match findById st.rows member_id with
    | none => .error (.notFound "Member not found")
    | some row => .ok (generate_ai_message row tone)
  else .error .invalidQuery

/-- The `email_content` dict of main.py lines 323-328. -/
structure EmailContent where
  «to» : String
  subject : String
  body : String
  dry_run : Bool
deriving DecidableEq, Repr

/-- The response of `send_birthday_email` (main.py lines 330-346). -/
structure SendResponse where
  status : String
  email : EmailContent
  message : String
deriving DecidableEq, Repr

/-- Python `str.lower()` on the ASCII names used here (per-character ASCII
lowercasing). -/
def lowerString (s : String) : String :=
  ⟨s.data.map Char.toLower⟩

/-- `send_birthday_email` (main.py lines 307-346), including the FastAPI
query validation. The second component records whether the simulated
dispatch side effect (the `[EMAIL]` console logging of lines 338-340) ran:
it is the only dispatch action, there is no real transport in the source. -/
def send_birthday_email (st : Store) (member_id : Nat) (tone : String)
    (dry_run : Bool) : Except ApiError SendResponse × Bool :=
  if tonePattern tone then
    match findById st.rows member_id with
    | none => (.error (.notFound "Member not found"), false)
    | some row =>
      let birthday_msg := generate_ai_message row tone
      let email_content : EmailContent :=
        { «to» := lowerString row.first_name ++ "." ++ lowerString row.last_name ++
            "@datavid.com"
          subject := "Happy Birthday, " ++ row.first_name ++ "!"
          body := birthday_msg.message
          dry_run := dry_run }
      if dry_run then
        (.ok { status := "dry_run"
               email := email_content
               message := "Email NOT sent (dry-run mode). Email content logged above." },
         false)
      else
        (.ok { status := "sent"
               email := email_content
               message := "Email sent successfully (simulated)" },
         true)
  else (.error .invalidQuery, false)

/-! ## Calendar lemmas -/

theorem isLeap_iff (y : Nat) :
    isLeap y = true ↔ (y % 4 = 0 ∧ (y % 100 ≠ 0 ∨ y % 400 = 0)) := by
  simp [isLeap]

theorem daysBeforeYear_succ (y : Nat) (hy : 1 ≤ y) :
    daysBeforeYear (y + 1) = daysBeforeYear y + 365 + (if isLeap y then 1 else 0) := by
  by_cases hp : isLeap y = true
  · rw [if_pos hp]
    have hP := (isLeap_iff y).mp hp
    unfold daysBeforeYear
    omega
  · rw [if_neg hp]
    have hnP : ¬(y % 4 = 0 ∧ (y % 100 ≠ 0 ∨ y % 400 = 0)) := fun c => hp ((isLeap_iff y).mpr c)
    push_neg at hnP
    unfold daysBeforeYear
    rcases Nat.eq_zero_or_pos (y % 4) with h4 | h4
    · have := hnP h4
      omega
    · omega

theorem isLeap_succ (y : Nat) (h : isLeap y = true) : isLeap (y + 1) = false := by
  have h4 : y % 4 = 0 := ((isLeap_iff y).mp h).1
  have h1 : (y + 1) % 4 = 1 := by omega
  simp [isLeap, h1]

theorem dbm_succ (l : Bool) (m : Nat) (h : 1 ≤ m) :
    daysBeforeMonth l (m + 1) = daysBeforeMonth l m + daysInMonth l m := by
  rcases m with _ | m
  · omega
  · rfl

theorem dbm_add_dim_le (l : Bool) :
    ∀ m < 13, 1 ≤ m →
      daysBeforeMonth l m + daysInMonth l m ≤ 365 + (if l then 1 else 0) := by
  rcases l <;> decide

theorem dbm_succ_le (l : Bool) :
    ∀ m' < 14, ∀ m < m', 1 ≤ m →
      daysBeforeMonth l m + daysInMonth l m ≤ daysBeforeMonth l m' := by
  rcases l <;> decide

theorem dbm_leapAdj :
    ∀ (l : Bool), ∀ m < 14,
      daysBeforeMonth l m =
        daysBeforeMonth false m + (if l && decide (3 ≤ m) then 1 else 0) := by
  decide

theorem dbm_13 (l : Bool) : daysBeforeMonth l 13 = 365 + (if l then 1 else 0) := by
  rcases l <;> decide

theorem dim_12 (l : Bool) : daysInMonth l 12 = 31 := by
  rcases l <;> decide

theorem valid_iff (d : Date) :
    d.valid = true ↔
      (1 ≤ d.year ∧ d.year ≤ 9999 ∧ 1 ≤ d.month ∧ d.month ≤ 12 ∧
       1 ≤ d.day ∧ d.day ≤ daysInMonth (isLeap d.year) d.month) := by
  simp [Date.valid, and_assoc]

theorem dateLt_iff (a b : Date) :
    dateLt a b = true ↔
      (a.year < b.year ∨
        (a.year = b.year ∧
          (a.month < b.month ∨ (a.month = b.month ∧ a.day < b.day)))) := by
  simp [dateLt, and_assoc]

theorem mkDate_eq_some {y m d : Nat} {c : Date} (h : mkDate y m d = some c) :
    c = Date.mk y m d ∧ (Date.mk y m d).valid = true := by
  unfold mkDate at h
  split at h
  · exact ⟨(Option.some_inj.mp h).symm, by assumption⟩
  · exact absurd h (by simp)

theorem mkDate_of_valid {y m d : Nat} (h : (Date.mk y m d).valid = true) :
    mkDate y m d = some (Date.mk y m d) := by
  unfold mkDate
  rw [if_pos h]

theorem mkDate_of_not_valid {y m d : Nat} (h : (Date.mk y m d).valid = false) :
    mkDate y m d = none := by
  unfold mkDate
  rw [if_neg (by simp [h])]

/-- Day-of-year bound: a valid (month, day) pair sits within the year. -/
theorem doy_le (l : Bool) (m d : Nat) (h1 : 1 ≤ m) (h2 : m ≤ 12)
    (h4 : d ≤ daysInMonth l m) :
    daysBeforeMonth l m + d ≤ 365 + (if l then 1 else 0) := by
  have := dbm_add_dim_le l m (by omega) h1
  omega

/-- Strict monotonicity of the day-of-year in the lexicographic (month, day)
order, over valid month/day pairs. -/
theorem doy_lt_of_lex (l : Bool) (m d m' d' : Nat) (h1 : 1 ≤ m) (h2 : m' ≤ 12)
    (h3 : d ≤ daysInMonth l m) (h4 : 1 ≤ d')
    (hlex : m < m' ∨ (m = m' ∧ d < d')) :
    daysBeforeMonth l m + d < daysBeforeMonth l m' + d' := by
  rcases hlex with h | ⟨he, hd⟩
  · have := dbm_succ_le l m' (by omega) m h h1
    omega
  · subst he
    omega

/-- A successful parse yields a real calendar date. -/
theorem parseDate_valid {s : String} {b : Date} (h : parseDate s = some b) :
    b.valid = true := by
  unfold parseDate at h
  split at h
  · split at h
    · obtain ⟨heq, hv⟩ := mkDate_eq_some h
      rw [heq]
      exact hv
    · exact absurd h (by simp)
  · exact absurd h (by simp)

/-! ## The claims -/

/-- C1: for every valid birth date and current date such that the birth
month/day exists in the relevant year, `calculate_days_until_birthday` builds
the candidate in the current year, switches to next year when the candidate
is strictly before today, returns the day-count difference candidate minus
today, which lies in [0, 366]; the month/day of today itself gives 0 and the
month/day of tomorrow gives 1. -/
theorem claim_C1 (birth today : Date) (_hb : birth.valid = true) (ht : today.valid = true)
    (h1 : (Date.mk today.year birth.month birth.day).valid = true)
    (h2 : dateLt (Date.mk today.year birth.month birth.day) today = true →
          (Date.mk (today.year + 1) birth.month birth.day).valid = true) :
    ∃ r : Int,
      daysUntilBirthday birth today = some r ∧
      r = (toOrdinal (if dateLt (Date.mk today.year birth.month birth.day) today
            then Date.mk (today.year + 1) birth.month birth.day
            else Date.mk today.year birth.month birth.day) : Int) -
          (toOrdinal today : Int) ∧
      0 ≤ r ∧ r ≤ 366 ∧
      (birth.month = today.month → birth.day = today.day → r = 0) ∧
      (birth.month = (nextDay today).month → birth.day = (nextDay today).day → r = 1) := by
  obtain ⟨hy1, hy2, htm1, htm2, htd1, htd2⟩ := (valid_iff today).mp ht
  obtain ⟨-, -, hbm1, hbm2, hbd1, hbd2⟩ := (valid_iff _).mp h1
  simp only at hbm1 hbm2 hbd1 hbd2
  by_cases hlt : dateLt (Date.mk today.year birth.month birth.day) today = true
  · -- the this-year candidate precedes today: next-year occurrence is used
    have h2v := h2 hlt
    have hlex : birth.month < today.month ∨
        (birth.month = today.month ∧ birth.day < today.day) := by
      have := (dateLt_iff _ _).mp hlt
      simp only at this
      omega
    have hA := daysBeforeYear_succ today.year hy1
    have hL := doy_lt_of_lex (isLeap today.year) birth.month birth.day
      today.month today.day hbm1 htm2 hbd2 htd1 hlex
    have hadj1 := dbm_leapAdj (isLeap today.year) birth.month (by omega)
    have hadj2 := dbm_leapAdj (isLeap (today.year + 1)) birth.month (by omega)
    have hdoyT := doy_le (isLeap today.year) today.month today.day htm1 htm2 htd2
    have hk1 : (if isLeap today.year then 1 else 0) ≤ 1 := by split <;> omega
    have ha1 : (if (isLeap today.year && decide (3 ≤ birth.month)) then 1 else 0) ≤ 1 := by
      split <;> omega
    have ha2 : (if (isLeap (today.year + 1) && decide (3 ≤ birth.month)) then 1 else 0) ≤ 1 := by
      split <;> omega
    refine ⟨(toOrdinal (Date.mk (today.year + 1) birth.month birth.day) : Int) -
      (toOrdinal today : Int), ?_, ?_, ?_, ?_, ?_, ?_⟩
    · simp only [daysUntilBirthday, mkDate_of_valid h1, mkDate_of_valid h2v, hlt, if_true]
    · rw [if_pos hlt]
    · simp only [toOrdinal]
      omega
    · simp only [toOrdinal]
      omega
    · intro hm hd
      exfalso
      omega
    · intro hm hd
      unfold nextDay at hm hd
      by_cases hc1 : today.day < daysInMonth (isLeap today.year) today.month
      · rw [if_pos hc1] at hm hd
        simp only at hm hd
        exfalso
        omega
      · rw [if_neg hc1] at hm hd
        by_cases hc2 : today.month < 12
        · rw [if_pos hc2] at hm hd
          simp only at hm hd
          exfalso
          omega
        · rw [if_neg hc2] at hm hd
          simp only at hm hd
          have htm12 : today.month = 12 := by omega
          have hsucc : daysBeforeMonth (isLeap today.year) 13 =
              daysBeforeMonth (isLeap today.year) 12 + daysInMonth (isLeap today.year) 12 :=
            dbm_succ (isLeap today.year) 12 (by omega)
          have h13 := dbm_13 (isLeap today.year)
          have h31 := dim_12 (isLeap today.year)
          have hz : daysBeforeMonth (isLeap (today.year + 1)) 1 = 0 := rfl
          rw [htm12] at hc1 htd2
          simp only [toOrdinal, hm, hd, htm12]
          omega
  · -- the this-year candidate is today or later: it is used directly
    have hge : ¬(birth.month < today.month ∨
        (birth.month = today.month ∧ birth.day < today.day)) := by
      intro hc
      exact hlt ((dateLt_iff _ _).mpr (Or.inr ⟨rfl, by simpa using hc⟩))
    push_neg at hge
    have hmono : daysBeforeMonth (isLeap today.year) today.month + today.day ≤
        daysBeforeMonth (isLeap today.year) birth.month + birth.day := by
      rcases Nat.lt_or_ge today.month birth.month with h | h
      · have := doy_lt_of_lex (isLeap today.year) today.month today.day
          birth.month birth.day htm1 hbm2 htd2 hbd1 (Or.inl h)
        omega
      · have hbmtm : birth.month = today.month := by omega
        have := hge.2 hbmtm
        rw [hbmtm]
        omega
    have hdoyC := doy_le (isLeap today.year) birth.month birth.day hbm1 hbm2 hbd2
    have hk1 : (if isLeap today.year then 1 else 0) ≤ 1 := by split <;> omega
    refine ⟨(toOrdinal (Date.mk today.year birth.month birth.day) : Int) -
      (toOrdinal today : Int), ?_, ?_, ?_, ?_, ?_, ?_⟩
    · have hlt' : dateLt (Date.mk today.year birth.month birth.day) today = false :=
        Bool.eq_false_iff.mpr hlt
      simp only [daysUntilBirthday, mkDate_of_valid h1, hlt', Bool.false_eq_true, if_false]
    · rw [if_neg hlt]
    · simp only [toOrdinal]
      omega
    · simp only [toOrdinal]
      omega
    · intro hm hd
      simp only [toOrdinal, hm, hd]
      omega
    · intro hm hd
      unfold nextDay at hm hd
      by_cases hc1 : today.day < daysInMonth (isLeap today.year) today.month
      · rw [if_pos hc1] at hm hd
        simp only at hm hd
        simp only [toOrdinal, hm, hd]
        omega
      · rw [if_neg hc1] at hm hd
        by_cases hc2 : today.month < 12
        · rw [if_pos hc2] at hm hd
          simp only at hm hd
          have hsucc := dbm_succ (isLeap today.year) today.month htm1
          simp only [toOrdinal, hm, hd]
          omega
        · rw [if_neg hc2] at hm hd
          simp only at hm hd
          exfalso
          omega

/-- Witness for C1 at the concrete pair birth 1990-10-13, today 2025-10-12. -/
theorem claim_C1_witness :
    ∃ r : Int,
      daysUntilBirthday (Date.mk 1990 10 13) (Date.mk 2025 10 12) = some r ∧
      r = (toOrdinal (if dateLt (Date.mk 2025 10 13) (Date.mk 2025 10 12)
            then Date.mk 2026 10 13
            else Date.mk 2025 10 13) : Int) -
          (toOrdinal (Date.mk 2025 10 12) : Int) ∧
      0 ≤ r ∧ r ≤ 366 ∧
      ((Date.mk 1990 10 13).month = (Date.mk 2025 10 12).month →
        (Date.mk 1990 10 13).day = (Date.mk 2025 10 12).day → r = 0) ∧
      ((Date.mk 1990 10 13).month = (nextDay (Date.mk 2025 10 12)).month →
        (Date.mk 1990 10 13).day = (nextDay (Date.mk 2025 10 12)).day → r = 1) :=
  claim_C1 (Date.mk 1990 10 13) (Date.mk 2025 10 12)
    (by decide) (by decide) (by decide) (by decide)

/-- C2: the birth-date validator parses strictly, computes the age by the
year difference minus the lexicographic (month, day) correction, rejects
ages under 18 with a message containing the computed age, and succeeds
otherwise. -/
theorem claim_C2 (v : String) (today : Date) :
    (parseDate v = none → validate_birth_date v today = .error formatMessage) ∧
    (∀ birth, parseDate v = some birth →
      birth.valid = true ∧
      computedAge birth today = (today.year : Int) - (birth.year : Int) -
        (if pairLt (today.month, today.day) (birth.month, birth.day) then 1 else 0) ∧
      (computedAge birth today < 18 →
        validate_birth_date v today = .error (underageMessage (computedAge birth today)) ∧
        ∃ pre, underageMessage (computedAge birth today) =
          pre ++ toString (computedAge birth today)) ∧
      (18 ≤ computedAge birth today → validate_birth_date v today = .ok v)) := by
  constructor
  · intro hp
    simp only [validate_birth_date, hp]
  · intro birth hp
    refine ⟨parseDate_valid hp, rfl, ?_, ?_⟩
    · intro hage
      constructor
      · simp only [validate_birth_date, hp]
        rw [if_pos hage]
      · exact ⟨"Member must be at least 18 years old. Current age would be ", rfl⟩
    · intro hage
      simp only [validate_birth_date, hp]
      rw [if_neg (by omega)]

/-- Witness for C2: a 2010 birth date seen from 2025-10-12 is rejected as
underage with the computed age 15 in the message. -/
theorem claim_C2_witness :
    validate_birth_date "2010-06-15" (Date.mk 2025 10 12) =
      .error (underageMessage 15) ∧
    ∃ pre, underageMessage 15 = pre ++ toString (15 : Int) := by
  have h := ((claim_C2 "2010-06-15" (Date.mk 2025 10 12)).2 (Date.mk 2010 6 15)
    (by decide)).2.2.1 (by decide)
  have hage : computedAge (Date.mk 2010 6 15) (Date.mk 2025 10 12) = 15 := by decide
  rw [hage] at h
  exact h

/-- C3 counterexample: with a Feb 29 birth month/day and current date
2025-03-01 (2025 is not a leap year) the computation raises `ValueError`
(modelled by `none`) instead of returning an integer, so the function is not
total on leap-day birth dates. -/
theorem claim_C3_counterexample :
    calculate_days_until_birthday "2000-02-29" (Date.mk 2025 3 1) = none := by
  decide

/-- C3 (amended): for a Feb 29 birth month/day,
`calculate_days_until_birthday` returns an integer exactly when the current
year is a leap year and its Feb 29 is not strictly before today; in every
other situation (non-leap current year, or a past Feb 29 whose next-year
occurrence does not exist) it raises. -/
theorem claim_C3 (birth today : Date) (ht : today.valid = true)
    (hm : birth.month = 2) (hd : birth.day = 29) :
    daysUntilBirthday birth today =
      if isLeap today.year && !(dateLt (Date.mk today.year 2 29) today) then
        some ((toOrdinal (Date.mk today.year 2 29) : Int) - (toOrdinal today : Int))
      else none := by
  obtain ⟨hy1, hy2, -, -, -, -⟩ := (valid_iff today).mp ht
  unfold daysUntilBirthday
  rw [hm, hd]
  by_cases hl : isLeap today.year = true
  · have hv : (Date.mk today.year 2 29).valid = true := by
      rw [valid_iff]
      refine ⟨hy1, hy2, show 1 ≤ 2 by decide, show 2 ≤ 12 by decide,
        show 1 ≤ 29 by decide, ?_⟩
      show 29 ≤ daysInMonth (isLeap today.year) 2
      rw [hl]
      decide
    rw [mkDate_of_valid hv]
    by_cases hlt : dateLt (Date.mk today.year 2 29) today = true
    · have hnl : isLeap (today.year + 1) = false := isLeap_succ _ hl
      have hnv : (Date.mk (today.year + 1) 2 29).valid = false := by
        rw [Bool.eq_false_iff]
        intro hcon
        obtain ⟨-, -, -, -, -, hday⟩ := (valid_iff _).mp hcon
        have hday' : 29 ≤ daysInMonth (isLeap (today.year + 1)) 2 := hday
        rw [hnl] at hday'
        exact absurd hday' (by decide)
      rw [mkDate_of_not_valid hnv]
      simp [hl, hlt]
    · have hlt' : dateLt (Date.mk today.year 2 29) today = false :=
        Bool.eq_false_iff.mpr hlt
      simp [hl, hlt']
  · have hl' : isLeap today.year = false := Bool.eq_false_iff.mpr hl
    have hnv : (Date.mk today.year 2 29).valid = false := by
      rw [Bool.eq_false_iff]
      intro hcon
      obtain ⟨-, -, -, -, -, hday⟩ := (valid_iff _).mp hcon
      have hday' : 29 ≤ daysInMonth (isLeap today.year) 2 := hday
      rw [hl'] at hday'
      exact absurd hday' (by decide)
    rw [mkDate_of_not_valid hnv]
    simp [hl']

/-- Witness for C3 at birth 2000-02-29 and today 2024-02-01 (a leap year,
before Feb 29). -/
theorem claim_C3_witness :
    daysUntilBirthday (Date.mk 2000 2 29) (Date.mk 2024 2 1) =
      if isLeap 2024 && !(dateLt (Date.mk 2024 2 29) (Date.mk 2024 2 1)) then
        some ((toOrdinal (Date.mk 2024 2 29) : Int) -
          (toOrdinal (Date.mk 2024 2 1) : Int))
      else none :=
  claim_C3 (Date.mk 2000 2 29) (Date.mk 2024 2 1) (by decide) (by decide) (by decide)

/-- C9: the birth year plays no role in the birthday-anniversary computation:
two parsed birth dates sharing month and day give the same result for every
current date. -/
theorem claim_C9 (s1 s2 : String) (today : Date) (b1 b2 : Date)
    (h1 : parseDate s1 = some b1) (h2 : parseDate s2 = some b2)
    (hm : b1.month = b2.month) (hd : b1.day = b2.day) :
    calculate_days_until_birthday s1 today = calculate_days_until_birthday s2 today := by
  simp only [calculate_days_until_birthday, h1, h2]
  simp only [daysUntilBirthday, hm, hd]

/-- Witness for C9: birth dates 1990-03-15 and 1985-03-15 agree. -/
theorem claim_C9_witness :
    calculate_days_until_birthday "1990-03-15" (Date.mk 2025 10 12) =
      calculate_days_until_birthday "1985-03-15" (Date.mk 2025 10 12) :=
  claim_C9 "1990-03-15" "1985-03-15" (Date.mk 2025 10 12)
    (Date.mk 1990 3 15) (Date.mk 1985 3 15) (by decide) (by decide) rfl rfl

/-- C4 counterexample: the claim quantifies over every store state, but when
the store already contains the key tuple, the first of the two identical
create requests already fails with the conflict error instead of
succeeding. -/
theorem claim_C4_counterexample :
    (create_member ⟨"John", "Smith", "1990-03-15", "USA", "New York"⟩
        (Date.mk 2025 10 12)
        ⟨[⟨1, "John", "Smith", "1990-03-15", "USA", "New York"⟩], 2⟩).1 =
      .error (.badRequest
        (conflictMessage ⟨"John", "Smith", "1990-03-15", "USA", "New York"⟩)) := by
  rfl

/-- C4 (amended): when the key tuple is not yet in the store and both
requests pass birth-date validation, the first create succeeds, the second
create with the same (first name, last name, country, city) fails as the 400
conflict client error whose description contains the name, city and country,
and the failed attempt leaves the store unchanged. -/
theorem claim_C4 (st : Store) (today : Date) (m1 m2 : MemberInput)
    (hf : m2.first_name = m1.first_name) (hl : m2.last_name = m1.last_name)
    (hco : m2.country = m1.country) (hci : m2.city = m1.city)
    (hfresh : st.rows.any (fun r => sameKey r m1) = false)
    (hv1 : validate_birth_date m1.birth_date today = .ok m1.birth_date)
    (hv2 : validate_birth_date m2.birth_date today = .ok m2.birth_date) :
    ∃ row st1,
      create_member m1 today st = (.ok row, st1) ∧
      create_member m2 today st1 = (.error (.badRequest (conflictMessage m2)), st1) ∧
      (∃ p1 p2 p3 p4, conflictMessage m2 =
        p1 ++ m2.first_name ++ " " ++ m2.last_name ++ p2 ++ m2.city ++ p3 ++
          m2.country ++ p4) := by
  refine ⟨⟨st.nextId, m1.first_name, m1.last_name, m1.birth_date, m1.country, m1.city⟩,
    ⟨st.rows ++ [⟨st.nextId, m1.first_name, m1.last_name, m1.birth_date,
      m1.country, m1.city⟩], st.nextId + 1⟩, ?_, ?_, ?_⟩
  · simp only [create_member, hv1, hfresh, Bool.false_eq_true, if_false]
  · have hdup : ((st.rows ++ [(⟨st.nextId, m1.first_name, m1.last_name, m1.birth_date,
        m1.country, m1.city⟩ : MemberRecord)]).any (fun r => sameKey r m2)) = true := by
      rw [List.any_append]
      have hone : sameKey ⟨st.nextId, m1.first_name, m1.last_name, m1.birth_date,
          m1.country, m1.city⟩ m2 = true := by
        simp [sameKey, hf, hl, hco, hci]
      simp [hone]
    simp only [create_member, hv2, hdup, if_true]
  · refine ⟨"Member with name \x27", "\x27 in ", ", ", " already exists", ?_⟩
    simp [conflictMessage, String.append_assoc]

/-- Witness for C4 (amended) on an empty store with two identical requests. -/
theorem claim_C4_witness :
    ∃ row st1,
      create_member ⟨"John", "Smith", "1990-03-15", "USA", "New York"⟩
          (Date.mk 2025 10 12) ⟨[], 1⟩ = (.ok row, st1) ∧
      create_member ⟨"John", "Smith", "1990-03-15", "USA", "New York"⟩
          (Date.mk 2025 10 12) st1 =
        (.error (.badRequest
          (conflictMessage ⟨"John", "Smith", "1990-03-15", "USA", "New York"⟩)), st1) ∧
      (∃ p1 p2 p3 p4,
        conflictMessage ⟨"John", "Smith", "1990-03-15", "USA", "New York"⟩ =
          p1 ++ "John" ++ " " ++ "Smith" ++ p2 ++ "New York" ++ p3 ++ "USA" ++ p4) :=
  claim_C4 ⟨[], 1⟩ (Date.mk 2025 10 12)
    ⟨"John", "Smith", "1990-03-15", "USA", "New York"⟩
    ⟨"John", "Smith", "1990-03-15", "USA", "New York"⟩
    rfl rfl rfl rfl rfl (by rfl) (by rfl)

/-- C5: the list operation computes the days value for every record, keeps
exactly the records with value at most 30 when `upcoming_only`, sorts
ascending by the value when `sort_by_birthday`, and applies the filter before
the sort. -/
theorem claim_C5 (st : Store) (today : Date) (sortB upF : Bool)
    (l : List (MemberRecord × Int)) (h : list_members st today sortB upF = some l) :
    (upF = true → ∀ x ∈ l, x.2 ≤ 30) ∧
    (sortB = true → List.Sorted byDays l) ∧
    (sortB = true → upF = true → ∃ base, augmentRows st.rows today = some base ∧
      l = (base.filter (fun m => m.2 ≤ 30)).insertionSort byDays) := by
  unfold list_members at h
  rcases haug : augmentRows st.rows today with _ | base
  · rw [haug] at h
    cases h
  · rw [haug] at h
    rcases sortB <;> rcases upF <;>
      simp only [Bool.false_eq_true, Bool.true_eq_false, eq_self_iff_true, if_true,
        if_false, Option.some.injEq] at h <;> subst h
    · exact ⟨fun hc => absurd hc Bool.false_ne_true,
        fun hc => absurd hc Bool.false_ne_true,
        fun hc => absurd hc Bool.false_ne_true⟩
    · refine ⟨fun _ x hx => ?_, fun hc => absurd hc Bool.false_ne_true,
        fun hc => absurd hc Bool.false_ne_true⟩
      rw [List.mem_filter] at hx
      exact of_decide_eq_true hx.2
    · exact ⟨fun hc => absurd hc Bool.false_ne_true,
        fun _ => List.sorted_insertionSort byDays base,
        fun _ hc => absurd hc Bool.false_ne_true⟩
    · refine ⟨fun _ x hx => ?_, fun _ => List.sorted_insertionSort byDays _,
        fun _ _ => ⟨base, rfl, rfl⟩⟩
      rw [(List.perm_insertionSort byDays _).mem_iff, List.mem_filter] at hx
      exact of_decide_eq_true hx.2

/-- Witness for C5: a two-member store with both toggles on yields a sorted
result (the record 50 days out is filtered away, the one 8 days out kept). -/
theorem claim_C5_witness :
    List.Sorted byDays [((⟨1, "A", "B", "1990-10-20", "USA", "X"⟩ : MemberRecord), (8 : Int))] :=
  (claim_C5 ⟨[⟨1, "A", "B", "1990-10-20", "USA", "X"⟩,
      ⟨2, "C", "D", "1990-12-01", "UK", "Y"⟩], 3⟩ (Date.mk 2025 10 12) true true
    [(⟨1, "A", "B", "1990-10-20", "USA", "X"⟩, (8 : Int))] (by decide)).2.1 rfl

/-- C6: a create request with non-empty names and a parsed birth date of age
at least 18, against a store without the key tuple, succeeds and returns the
record with the assigned id and all caller-supplied fields verbatim,
including the birth date. -/
theorem claim_C6 (m : MemberInput) (today : Date) (st : Store) (birth : Date)
    (_hfn : m.first_name ≠ "") (_hln : m.last_name ≠ "")
    (hp : parseDate m.birth_date = some birth)
    (hage : 18 ≤ computedAge birth today)
    (hfresh : st.rows.any (fun r => sameKey r m) = false) :
    create_member m today st =
      (.ok (⟨st.nextId, m.first_name, m.last_name, m.birth_date,
              m.country, m.city⟩ : MemberRecord),
       ⟨st.rows ++ [⟨st.nextId, m.first_name, m.last_name, m.birth_date,
          m.country, m.city⟩], st.nextId + 1⟩) := by
  have hv : validate_birth_date m.birth_date today = .ok m.birth_date := by
    simp only [validate_birth_date, hp]
    rw [if_neg (by omega)]
  simp only [create_member, hv, hfresh, Bool.false_eq_true, if_false]

/-- Witness for C6 on an empty store. -/
theorem claim_C6_witness :
    create_member ⟨"Ana", "Lima", "1990-10-20", "Brazil", "Rio"⟩
        (Date.mk 2025 10 12) ⟨[], 1⟩ =
      (.ok (⟨1, "Ana", "Lima", "1990-10-20", "Brazil", "Rio"⟩ : MemberRecord),
       ⟨[⟨1, "Ana", "Lima", "1990-10-20", "Brazil", "Rio"⟩], 2⟩) :=
  claim_C6 ⟨"Ana", "Lima", "1990-10-20", "Brazil", "Rio"⟩ (Date.mk 2025 10 12)
    ⟨[], 1⟩ (Date.mk 1990 10 20) (by decide) (by decide) (by decide) (by decide) rfl

/-- C7: both message endpoints reject a tone outside the two recognized
values with the 422 query-validation error before the handler body (and thus
before any message generation) runs, and never produce that error for the
two recognized tones. -/
theorem claim_C7 (st : Store) (member_id : Nat) (tone : String) :
    (tone ≠ "friendly" → tone ≠ "formal" →
      generate_birthday_message st member_id tone = .error .invalidQuery ∧
      (∀ dry_run : Bool,
        send_birthday_email st member_id tone dry_run = (.error .invalidQuery, false))) ∧
    (tone = "friendly" ∨ tone = "formal" →
      generate_birthday_message st member_id tone ≠ .error .invalidQuery ∧
      (∀ dry_run : Bool,
        (send_birthday_email st member_id tone dry_run).1 ≠ .error .invalidQuery)) := by
  constructor
  · intro h1 h2
    have hp : tonePattern tone = false := by
      simp [tonePattern, h1, h2]
    constructor
    · simp only [generate_birthday_message, hp, Bool.false_eq_true, if_false]
    · intro dry_run
      simp only [send_birthday_email, hp, Bool.false_eq_true, if_false]
  · intro h
    have hp : tonePattern tone = true := by
      rcases h with rfl | rfl <;> rfl
    constructor
    · simp only [generate_birthday_message, hp, if_true]
      rcases hf : findById st.rows member_id with _ | row <;> simp
    · intro dry_run
      simp only [send_birthday_email, hp, if_true]
      rcases hf : findById st.rows member_id with _ | row <;> simp
      rcases dry_run <;> simp

/-- Witness for C7: the tone "casual" is rejected by both endpoints, the tone
"friendly" is not rejected as a tone. -/
theorem claim_C7_witness :
    generate_birthday_message
        ⟨[⟨1, "John", "Smith", "1990-03-15", "USA", "New York"⟩], 2⟩ 1 "casual" =
      .error .invalidQuery ∧
    send_birthday_email
        ⟨[⟨1, "John", "Smith", "1990-03-15", "USA", "New York"⟩], 2⟩ 1 "casual" true =
      (.error .invalidQuery, false) ∧
    generate_birthday_message
        ⟨[⟨1, "John", "Smith", "1990-03-15", "USA", "New York"⟩], 2⟩ 1 "friendly" ≠
      .error .invalidQuery := by
  have ha := (claim_C7 ⟨[⟨1, "John", "Smith", "1990-03-15", "USA", "New York"⟩], 2⟩
    1 "casual").1 (by decide) (by decide)
  have hb := (claim_C7 ⟨[⟨1, "John", "Smith", "1990-03-15", "USA", "New York"⟩], 2⟩
    1 "friendly").2 (Or.inl rfl)
  exact ⟨ha.1, ha.2 true, hb.1⟩

/-- C8: for an existing member and recognized tone, the send-email operation
derives the recipient address from the lower-cased names and the fixed
domain, builds the envelope with the generated message as body, returns
status "dry_run" with no dispatch side effect when the dry-run flag is true,
and status "sent" with the simulated dispatch side effect when it is false;
the two statuses differ. -/
theorem claim_C8 (st : Store) (member_id : Nat) (tone : String) (row : MemberRecord)
    (htone : tonePattern tone = true)
    (hfind : findById st.rows member_id = some row) :
    send_birthday_email st member_id tone true =
      (.ok { status := "dry_run"
             email := { «to» := lowerString row.first_name ++ "." ++
                          lowerString row.last_name ++ "@datavid.com"
                        subject := "Happy Birthday, " ++ row.first_name ++ "!"
                        body := (generate_ai_message row tone).message
                        dry_run := true }
             message := "Email NOT sent (dry-run mode). Email content logged above." },
       false) ∧
    send_birthday_email st member_id tone false =
      (.ok { status := "sent"
             email := { «to» := lowerString row.first_name ++ "." ++
                          lowerString row.last_name ++ "@datavid.com"
                        subject := "Happy Birthday, " ++ row.first_name ++ "!"
                        body := (generate_ai_message row tone).message
                        dry_run := false }
             message := "Email sent successfully (simulated)" },
       true) ∧
    ("dry_run" : String) ≠ "sent" :=
  ⟨by simp only [send_birthday_email, htone, if_true, hfind],
   by simp only [send_birthday_email, htone, if_true, hfind, Bool.false_eq_true, if_false],
   by decide⟩

/-- Witness for C8 on a one-member store. -/
theorem claim_C8_witness :
    send_birthday_email
        ⟨[⟨1, "John", "Smith", "1990-03-15", "USA", "New York"⟩], 2⟩ 1 "friendly" true =
      (.ok { status := "dry_run"
             email := { «to» := lowerString "John" ++ "." ++
                          lowerString "Smith" ++ "@datavid.com"
                        subject := "Happy Birthday, " ++ "John" ++ "!"
                        body := (generate_ai_message
                          ⟨1, "John", "Smith", "1990-03-15", "USA", "New York"⟩
                          "friendly").message
                        dry_run := true }
             message := "Email NOT sent (dry-run mode). Email content logged above." },
       false) ∧
    send_birthday_email
        ⟨[⟨1, "John", "Smith", "1990-03-15", "USA", "New York"⟩], 2⟩ 1 "friendly" false =
      (.ok { status := "sent"
             email := { «to» := lowerString "John" ++ "." ++
                          lowerString "Smith" ++ "@datavid.com"
                        subject := "Happy Birthday, " ++ "John" ++ "!"
                        body := (generate_ai_message
                          ⟨1, "John", "Smith", "1990-03-15", "USA", "New York"⟩
                          "friendly").message
                        dry_run := false }
             message := "Email sent successfully (simulated)" },
       true) ∧
    ("dry_run" : String) ≠ "sent" :=
  claim_C8 ⟨[⟨1, "John", "Smith", "1990-03-15", "USA", "New York"⟩], 2⟩ 1 "friendly"
    ⟨1, "John", "Smith", "1990-03-15", "USA", "New York"⟩ (by decide) (by decide)

/-- C10: in the template strategy, an unrecognized tone does not fail: the
message falls back to the friendly template while the explanation parameters
record the supplied tone verbatim. -/
theorem claim_C10 (member : MemberRecord) (tone : String)
    (h1 : tone ≠ "friendly") (h2 : tone ≠ "formal") :
    (generate_ai_message member tone).message = friendlyTemplate member ∧
    (generate_ai_message member tone).explanation.parameters.tone = tone := by
  refine ⟨?_, rfl⟩
  show toneTemplate member tone = friendlyTemplate member
  unfold toneTemplate
  split
  · exact absurd rfl (by assumption)
  · exact absurd rfl (by assumption)
  · rfl

/-- Witness for C10 with the unrecognized tone "casual". -/
theorem claim_C10_witness :
    (generate_ai_message ⟨1, "John", "Smith", "1990-03-15", "USA", "New York"⟩
        "casual").message =
      friendlyTemplate ⟨1, "John", "Smith", "1990-03-15", "USA", "New York"⟩ ∧
    (generate_ai_message ⟨1, "John", "Smith", "1990-03-15", "USA", "New York"⟩
        "casual").explanation.parameters.tone = "casual" :=
  claim_C10 ⟨1, "John", "Smith", "1990-03-15", "USA", "New York"⟩ "casual"
    (by decide) (by decide)

end Celebration
